import Mathlib

/-!
A verification development for the web-session subsystem of the gerbera
media server (`src/web/session_manager.cc`).

The C++ state is embedded shallowly: `Session` and `SessionManager` become
Lean structures, every method becomes a pure function from the old state to
the new state (returning its C++ return value alongside the new state where
it has one).  The `std::unordered_set<int>` of pending UI update ids is
modelled as a duplicate-free `List Int` kept in insertion order — one
concrete iteration order of the unordered container.  Locks are dropped:
every method is modelled as the atomic state transformer its lock makes it,
so a double-checked test such as the one in `containerChangedUI` collapses
to a single test.

Helpers that live outside the provided sources (`util/tools`:
`generate_random_id`, `toCSV`, `getDeltaMillis`; the server's common
header: `INVALID_OBJECT_ID`) are modelled from the spec and marked as such
in their doc comments.
-/

set_option autoImplicit false
set_option maxRecDepth 10000

namespace Gerbera

/-- Modelled from the spec: `INVALID_OBJECT_ID` is a sentinel object
identifier defined in the server's common header, which is not among the
provided sources.  The session logic only ever compares an id against it,
so the concrete value is irrelevant; we fix the server's value. -/
def INVALID_OBJECT_ID : Int := -333

/-- `#define MAX_UI_UPDATE_IDS 10` (session_manager.cc line 41). -/
def MAX_UI_UPDATE_IDS : Nat := 10

/-- `std::unordered_set<int>::insert`: add the element unless it is already
present.  Insertion order is kept as the set's concrete iteration order. -/
def setInsert (s : List Int) (x : Int) : List Int :=
  if x ∈ s then s else s ++ [x]

/-- Per-client session state (`class Session`).  `lastAccess` is in
milliseconds since an arbitrary epoch (the C++ `struct timespec` reduced to
the one quantity the code derives from it, a millisecond delta). -/
structure Session where
  sessionID : String
  loggedIn : Bool
  timeout : Int
  lastAccess : Int
  dict : List (String × String)
  uiUpdateIDs : List Int
  updateAll : Bool
deriving Repr, DecidableEq

/-- `Session::Session(long timeout)`: empty id, not logged in, empty update
set, `updateAll = false`, and `access()` stamping the current time. -/
def Session.fresh (timeout now : Int) : Session :=
  { sessionID := ""
    loggedIn := false
    timeout := timeout
    lastAccess := now
    dict := []
    uiUpdateIDs := []
    updateAll := false }

/-- `Session::access()`: bump `lastAccess` to now. -/
def Session.access (s : Session) (now : Int) : Session :=
  { s with lastAccess := now }

/-- `Session::containerChangedUI(int objectID)` (session_manager.cc
lines 71-85).  The double-checked `updateAll` test collapses to one test in
the sequential model. -/
def Session.containerChangedUI (s : Session) (objectID : Int) : Session :=
  if objectID = INVALID_OBJECT_ID then s
  else if s.updateAll then s
  else if MAX_UI_UPDATE_IDS ≤ s.uiUpdateIDs.length then
    { s with updateAll := true, uiUpdateIDs := [] }
  else
    { s with uiUpdateIDs := setInsert s.uiUpdateIDs objectID }

/-- `Session::containerChangedUI(const std::vector<int>&)`
(session_manager.cc lines 87-106).  Note the cap test adds the raw batch
length `arSize` to the current set size, duplicates and all, and applies no
per-id validity filter. -/
def Session.containerChangedUIBatch (s : Session) (objectIDs : List Int) : Session :=
  if s.updateAll then s
  else if MAX_UI_UPDATE_IDS ≤ s.uiUpdateIDs.length + objectIDs.length then
    { s with updateAll := true, uiUpdateIDs := [] }
  else
    { s with uiUpdateIDs := objectIDs.foldl setInsert s.uiUpdateIDs }

/-- Modelled from the spec: `toCSV` (from `util/tools`, not among the
provided sources) renders a collection of ints as a comma-separated list. -/
def toCSV : List Int → String
  | [] => ""
  | [x] => toString x
  | x :: y :: rest => toString x ++ "," ++ toCSV (y :: rest)

/-- `Session::hasUIUpdateIDs()` (lines 123-129): non-destructive peek. -/
def Session.hasUIUpdateIDs (s : Session) : Bool :=
  if s.updateAll then true else decide (0 < s.uiUpdateIDs.length)

/-- `Session::getUIUpdateIDs()` (lines 108-121): returns the rendered
update signal together with the session state it leaves behind. -/
def Session.getUIUpdateIDs (s : Session) : String × Session :=
  if s.hasUIUpdateIDs = false then ("", s)
  else if s.updateAll then ("all", { s with updateAll := false })
  else
    let ret := toCSV s.uiUpdateIDs
    if ret ≠ "" then (ret, { s with uiUpdateIDs := [] }) else (ret, s)

/-- `Session::clearUpdateIDs()` (lines 131-137). -/
def Session.clearUpdateIDs (s : Session) : Session :=
  { s with uiUpdateIDs := [], updateAll := false }

/-- `Session::put` (lines 59-63): last-write-wins scratch storage. -/
def Session.put (s : Session) (key value : String) : Session :=
  { s with dict := (key, value) :: s.dict.filter (fun kv => !(kv.1 == key)) }

/-- The session operations claim C3 ranges over. -/
inductive SessionOp where
  | single : Int → SessionOp
  | batch : List Int → SessionOp
  | drain : SessionOp
  | clear : SessionOp
deriving Repr, DecidableEq

/-- Apply one operation to a session (`drain` is `getUIUpdateIDs`, whose
returned string is discarded here; `clear` is `clearUpdateIDs`). -/
def SessionOp.apply (s : Session) : SessionOp → Session
  | .single objectID => s.containerChangedUI objectID
  | .batch objectIDs => s.containerChangedUIBatch objectIDs
  | .drain => (s.getUIUpdateIDs).2
  | .clear => s.clearUpdateIDs

/-- Run a sequence of session operations from a given state. -/
def runOps (s : Session) (ops : List SessionOp) : Session :=
  ops.foldl SessionOp.apply s

/-- The session registry (`class SessionManager`).  The read-only account
dictionary and `getUserPassword` are not modelled: no claim mentions them.
`timerAdded` records whether the manager is currently subscribed to the
external periodic timer (the subscribe / unsubscribe calls themselves are
side effects on the out-of-scope timer collaborator). -/
structure SessionManager where
  sessions : List Session
  timerAdded : Bool
deriving Repr, DecidableEq

/-- `SessionManager::getSession` (lines 165-176): linear scan by id.  The
`doLock` parameter is lock plumbing with no state effect and is dropped. -/
def SessionManager.getSession (m : SessionManager) (sessionID : String) : Option Session :=
  m.sessions.find? (fun s => s.sessionID == sessionID)

/-- `SessionManager::checkTimer` (lines 221-230). -/
def SessionManager.checkTimer (m : SessionManager) : SessionManager :=
  if 0 < m.sessions.length ∧ m.timerAdded = false then { m with timerAdded := true }
  else if m.sessions.length ≤ 0 ∧ m.timerAdded = true then { m with timerAdded := false }
  else m

/-- The id-generation loop of `SessionManager::createSession`
(lines 151-157).  `generate_random_id` is not among the provided sources,
so (modelled from the spec) the ids it would return are an input stream
`gen`, indexed by the loop counter.  `count` is the C++ `count` at the
moment of the post-increment test `count++ > 100`, i.e. the number of
completed earlier iterations.  The loop can run at most 102 iterations
(`count` 0 through 101), so a structural fuel of 102 makes the
fuel-exhaustion branch unreachable from `sessionIdLoop` below; it fires the
same error as the bound check so that it could only ever be conservative. -/
def sessionIdGo (m : SessionManager) (gen : Nat → String) (count fuel : Nat) : Except String String :=
  if 100 < count then .error (gen count)
  else if (m.getSession (gen count)).isSome then
    match fuel with
    | 0 => .error (gen count)
    | fuel + 1 => sessionIdGo m gen (count + 1) fuel
  else .ok (gen count)

/-- The retry loop entered with `count = 0` and enough fuel for its worst
case (102 iterations). -/
def sessionIdLoop (m : SessionManager) (gen : Nat → String) : Except String String :=
  sessionIdGo m gen 0 102

/-- `SessionManager::createSession` (lines 146-163).  The thrown
`_Exception` becomes the `Except.error` branch, carrying the last generated
session id (the one the C++ message reports). -/
def SessionManager.createSession (m : SessionManager) (gen : Nat → String) (timeout now : Int) :
    Except String (Session × SessionManager) :=
  let newSession := Session.fresh timeout now
  match sessionIdLoop m gen with
  | .error sessionID => .error sessionID
  | .ok sessionID =>
    let s := { newSession with sessionID := sessionID }
    let m1 : SessionManager := { m with sessions := m.sessions ++ [s] }
    .ok (s, m1.checkTimer)

/-- The erase-first-match loop of `SessionManager::removeSession`
(lines 178-190): `none` when no session carries the id (the loop falls
through without mutating), otherwise the list with the first match erased. -/
def removeFirstSession (sessionID : String) : List Session → Option (List Session)
  | [] => none
  | s :: rest =>
    if s.sessionID == sessionID then some rest
    else (removeFirstSession sessionID rest).map (fun l => s :: l)

/-- `SessionManager::removeSession` (lines 178-190): `checkTimer` runs only
when a session was actually erased. -/
def SessionManager.removeSession (m : SessionManager) (sessionID : String) : SessionManager :=
  match removeFirstSession sessionID m.sessions with
  | none => m
  | some l => SessionManager.checkTimer { m with sessions := l }

/-- `SessionManager::containerChangedUI(int)` (lines 197-207): early return
on an empty registry, otherwise forward to each logged-in session. -/
def SessionManager.containerChangedUI (m : SessionManager) (objectID : Int) : SessionManager :=
  if m.sessions.length ≤ 0 then m
  else { m with sessions := m.sessions.map (fun s => if s.loggedIn then s.containerChangedUI objectID else s) }

/-- `SessionManager::containerChangedUI(const std::vector<int>&)`
(lines 209-219). -/
def SessionManager.containerChangedUIBatch (m : SessionManager) (objectIDs : List Int) : SessionManager :=
  if m.sessions.length ≤ 0 then m
  else { m with sessions := m.sessions.map (fun s => if s.loggedIn then s.containerChangedUIBatch objectIDs else s) }

/-- Modelled from the spec: `getDeltaMillis` (from `util/tools`, not among
the provided sources) yields the millisecond delta between a stored
timestamp and now; timestamps are already held in milliseconds here. -/
def getDeltaMillis (last now : Int) : Int := now - last

/-- The eviction test of `SessionManager::timerNotify` (line 240):
`getDeltaMillis(lastAccess, &now) > 1000 * timeout`. -/
def sessionExpired (now : Int) (s : Session) : Bool :=
  decide (1000 * s.timeout < getDeltaMillis s.lastAccess now)

/-- The sweep loop of `SessionManager::timerNotify` (lines 238-246) as a
recursion over the unscanned suffix: `kept` are the already-scanned
survivors sitting before index `i`, `rest` the sessions from `i` on.  On an
expired session the vector after `erase` is `kept ++ rs`, and `checkTimer`
runs on exactly that vector with the current flag; `i--` then `i++` lands
on the next unscanned element either way. -/
def sweepLoop (now : Int) (kept rest : List Session) (flag : Bool) : List Session × Bool :=
  match rest with
  | [] => (kept, flag)
  | s :: rs =>
    if sessionExpired now s then
      sweepLoop now kept rs (SessionManager.checkTimer ⟨kept ++ rs, flag⟩).timerAdded
    else
      sweepLoop now (kept ++ [s]) rs flag

/-- `SessionManager::timerNotify` (lines 232-247). -/
def SessionManager.timerNotify (m : SessionManager) (now : Int) : SessionManager :=
  let r := sweepLoop now [] m.sessions m.timerAdded
  { sessions := r.1, timerAdded := r.2 }

/-- Whether an `Except` result is the success branch. -/
def isOkB {ε α : Type} : Except ε α → Bool
  | .ok _ => true
  | .error _ => false

/-- A session holding nine pending ids, reachable from a fresh session by
nine single-id notifications (counterexample state for C1). -/
def c1State : Session :=
  { Session.fresh 0 0 with uiUpdateIDs := [1, 2, 3, 4, 5, 6, 7, 8, 9] }

/-- Id stream whose first 100 ids collide with the live session below and
whose 101st is fresh (counterexample input for C4). -/
def c4Gen : Nat → String := fun i => if i < 100 then "a" else "b"

/-- A registry holding one live session with id `"a"` (counterexample state
for C4). -/
def c4Mgr : SessionManager :=
  { sessions := [{ Session.fresh 0 0 with sessionID := "a" }], timerAdded := true }

/-- The session created in the C4 witness run. -/
def c4wSession : Session := { Session.fresh 0 0 with sessionID := "x" }

/-- The registry after the C4 witness run. -/
def c4wMgr : SessionManager := { sessions := [c4wSession], timerAdded := true }

/-- The session created in the C5 witness run. -/
def c5Session : Session := { Session.fresh 0 0 with sessionID := "y" }

/-- The registry after the C5 witness run. -/
def c5Mgr : SessionManager := { sessions := [c5Session], timerAdded := true }

/-- A registry holding one live session with id `"a"` and the timer
subscribed (witness state for C6). -/
def c6Mgr : SessionManager :=
  { sessions := [{ Session.fresh 0 0 with sessionID := "a" }], timerAdded := true }

/-- A session last accessed at time 0 with a one-second timeout: expired at
`now = 2000` ms (witness data for C7). -/
def c7Expired : Session := { Session.fresh 1 0 with sessionID := "old" }

/-- A session last accessed at 1500 ms with a one-second timeout: alive at
`now = 2000` ms (witness data for C7). -/
def c7Alive : Session := { Session.fresh 1 1500 with sessionID := "new" }

/-- A registry holding one expired and one live session (witness state for
C7). -/
def c7Mgr : SessionManager := { sessions := [c7Expired, c7Alive], timerAdded := true }

/-! ## Helper lemmas -/

theorem toDigitsCore_len_mono (b fuel : Nat) : ∀ (n : Nat) (ds : List Char),
    ds.length ≤ (Nat.toDigitsCore b fuel n ds).length := by
  induction fuel with
  | zero => intro n ds; simp [Nat.toDigitsCore]
  | succ f ih =>
    intro n ds
    unfold Nat.toDigitsCore
    dsimp only
    split
    · simp
    · exact le_trans (by simp) (ih _ _)

theorem toDigits_len_pos (b n : Nat) : 0 < (Nat.toDigits b n).length := by
  unfold Nat.toDigits
  unfold Nat.toDigitsCore
  dsimp only
  split
  · simp
  · exact lt_of_lt_of_le (by simp) (toDigitsCore_len_mono b n _ _)

theorem natRepr_ne_empty (n : Nat) : Nat.repr n ≠ "" := by
  unfold Nat.repr
  intro h
  have hlen : (Nat.toDigits 10 n).length = 0 := by
    have := congrArg String.length h
    simpa [List.asString, String.length] using this
  exact absurd hlen (Nat.pos_iff_ne_zero.mp (toDigits_len_pos 10 n))

theorem intToString_ne_empty (x : Int) : toString x ≠ "" := by
  show Int.repr x ≠ ""
  cases x with
  | ofNat n => simpa [Int.repr] using natRepr_ne_empty n
  | negSucc n =>
    simp only [Int.repr]
    intro h
    have := congrArg String.length h
    simp [String.length_append] at this
    exact absurd this.1 (by decide)

theorem toCSV_ne_empty : ∀ (l : List Int), l ≠ [] → toCSV l ≠ "" := by
  intro l hl
  match l with
  | [x] => exact intToString_ne_empty x
  | x :: y :: rest =>
    intro h
    have hlen := congrArg String.length h
    rw [show toCSV (x :: y :: rest) = toString x ++ "," ++ toCSV (y :: rest) from rfl] at hlen
    have hc : String.length "," = 1 := by decide
    simp [String.length_append, hc] at hlen

theorem mem_setInsert_self (s : List Int) (x : Int) : x ∈ setInsert s x := by
  unfold setInsert
  split
  · assumption
  · simp

/-! ## The claims -/

/-- C10: the single-id `Session::containerChangedUI` drops
`INVALID_OBJECT_ID` leaving the whole session unchanged, while the batch
overload applies no such filter: handed the sentinel with `updateAll` off
and room in the set, it inserts it like any other id. -/
theorem C10_invalid_filtering (s : Session) :
    s.containerChangedUI INVALID_OBJECT_ID = s ∧
    (s.updateAll = false → s.uiUpdateIDs.length + 1 < MAX_UI_UPDATE_IDS →
      INVALID_OBJECT_ID ∈ (s.containerChangedUIBatch [INVALID_OBJECT_ID]).uiUpdateIDs) := by
  constructor
  · simp [Session.containerChangedUI]
  · intro h1 h2
    have hnotle : ¬ (MAX_UI_UPDATE_IDS ≤ s.uiUpdateIDs.length + 1) := Nat.not_le.mpr h2
    simp [Session.containerChangedUIBatch, h1, hnotle, mem_setInsert_self]

/-- Witness for C10 at a fresh session. -/
theorem C10_invalid_filtering_witness :
    ((Session.fresh 0 0).containerChangedUI INVALID_OBJECT_ID = Session.fresh 0 0) ∧
    INVALID_OBJECT_ID ∈ ((Session.fresh 0 0).containerChangedUIBatch [INVALID_OBJECT_ID]).uiUpdateIDs :=
  ⟨(C10_invalid_filtering (Session.fresh 0 0)).1,
   (C10_invalid_filtering (Session.fresh 0 0)).2 rfl (by decide)⟩

/-- C2: `Session::getUIUpdateIDs` returns `""` on a quiescent session,
returns `"all"` and resets the flag when `updateAll` is set, and otherwise
returns the comma-separated pending set while clearing it, so that an
immediately repeated call returns `""` (drain-on-read). -/
theorem C2_drain_on_read (s : Session) :
    (s.updateAll = false → s.uiUpdateIDs = [] → s.getUIUpdateIDs = ("", s)) ∧
    (s.updateAll = true → s.getUIUpdateIDs = ("all", { s with updateAll := false })) ∧
    (s.updateAll = false → s.uiUpdateIDs ≠ [] →
      s.getUIUpdateIDs = (toCSV s.uiUpdateIDs, { s with uiUpdateIDs := [] }) ∧
      ((s.getUIUpdateIDs).2.getUIUpdateIDs) = ("", (s.getUIUpdateIDs).2)) := by
  refine ⟨?_, ?_, ?_⟩
  · intro h1 h2
    simp [Session.getUIUpdateIDs, Session.hasUIUpdateIDs, h1, h2]
  · intro h
    simp [Session.getUIUpdateIDs, Session.hasUIUpdateIDs, h]
  · intro h1 h2
    have hcsv := toCSV_ne_empty s.uiUpdateIDs h2
    have hmain : s.getUIUpdateIDs = (toCSV s.uiUpdateIDs, { s with uiUpdateIDs := [] }) := by
      simp [Session.getUIUpdateIDs, Session.hasUIUpdateIDs, h1, h2, hcsv]
    refine ⟨hmain, ?_⟩
    rw [hmain]
    simp [Session.getUIUpdateIDs, Session.hasUIUpdateIDs, h1]

/-- Witness for C2 at a session in `updateAll` mode. -/
theorem C2_drain_on_read_witness :
    ({ Session.fresh 0 0 with updateAll := true } : Session).getUIUpdateIDs =
      ("all", { { Session.fresh 0 0 with updateAll := true } with updateAll := false }) :=
  (C2_drain_on_read { Session.fresh 0 0 with updateAll := true }).2.1 rfl

/-- C1 (counterexample): with nine pending ids, adding the fresh id 10
would make the collapsed set reach `MAX_UI_UPDATE_IDS = 10`, so the claim
requires the switch to `updateAll`; the code instead inserts the tenth id
and stays out of `updateAll` mode. -/
theorem C1_counterexample :
    c1State.updateAll = false ∧
    (setInsert c1State.uiUpdateIDs 10).length = MAX_UI_UPDATE_IDS ∧
    (c1State.containerChangedUI 10).updateAll = false ∧
    (c1State.containerChangedUI 10).uiUpdateIDs = [1, 2, 3, 4, 5, 6, 7, 8, 9, 10] := by
  decide

/-- C1 (amended): outside `updateAll` mode the single-id overload switches
to `updateAll` (clearing the set) exactly when the set already holds
`MAX_UI_UPDATE_IDS` ids before the call, and otherwise inserts the id with
set semantics; the batch overload switches exactly when the current size
plus the raw batch length (duplicates counted, not collapsed) reaches
`MAX_UI_UPDATE_IDS`, and otherwise inserts the batch with set semantics. -/
theorem C1_cap_switch (s : Session) (h : s.updateAll = false) (objectID : Int)
    (hid : objectID ≠ INVALID_OBJECT_ID) (objectIDs : List Int) :
    ((s.containerChangedUI objectID).updateAll = true ↔
      MAX_UI_UPDATE_IDS ≤ s.uiUpdateIDs.length) ∧
    (MAX_UI_UPDATE_IDS ≤ s.uiUpdateIDs.length →
      s.containerChangedUI objectID = { s with updateAll := true, uiUpdateIDs := [] }) ∧
    (s.uiUpdateIDs.length < MAX_UI_UPDATE_IDS →
      s.containerChangedUI objectID = { s with uiUpdateIDs := setInsert s.uiUpdateIDs objectID }) ∧
    ((s.containerChangedUIBatch objectIDs).updateAll = true ↔
      MAX_UI_UPDATE_IDS ≤ s.uiUpdateIDs.length + objectIDs.length) ∧
    (MAX_UI_UPDATE_IDS ≤ s.uiUpdateIDs.length + objectIDs.length →
      s.containerChangedUIBatch objectIDs = { s with updateAll := true, uiUpdateIDs := [] }) ∧
    (s.uiUpdateIDs.length + objectIDs.length < MAX_UI_UPDATE_IDS →
      s.containerChangedUIBatch objectIDs =
        { s with uiUpdateIDs := objectIDs.foldl setInsert s.uiUpdateIDs }) := by
  refine ⟨?_, ?_, ?_, ?_, ?_, ?_⟩
  · by_cases hle : MAX_UI_UPDATE_IDS ≤ s.uiUpdateIDs.length <;>
      simp [Session.containerChangedUI, hid, h, hle]
  · intro hle
    simp [Session.containerChangedUI, hid, h, hle]
  · intro hlt
    simp [Session.containerChangedUI, hid, h, Nat.not_le.mpr hlt]
  · by_cases hle : MAX_UI_UPDATE_IDS ≤ s.uiUpdateIDs.length + objectIDs.length <;>
      simp [Session.containerChangedUIBatch, h, hle]
  · intro hle
    simp [Session.containerChangedUIBatch, h, hle]
  · intro hlt
    simp [Session.containerChangedUIBatch, h, Nat.not_le.mpr hlt]

/-- Witness for C1 (amended) at a fresh session, below the cap in both
overloads. -/
theorem C1_cap_switch_witness :
    (Session.fresh 0 0).containerChangedUI 5 =
      { Session.fresh 0 0 with uiUpdateIDs := setInsert (Session.fresh 0 0).uiUpdateIDs 5 } ∧
    (Session.fresh 0 0).containerChangedUIBatch [1, 2] =
      { Session.fresh 0 0 with uiUpdateIDs := [1, 2].foldl setInsert (Session.fresh 0 0).uiUpdateIDs } :=
  ⟨(C1_cap_switch (Session.fresh 0 0) rfl 5 (by decide) [1, 2]).2.2.1 (by decide),
   (C1_cap_switch (Session.fresh 0 0) rfl 5 (by decide) [1, 2]).2.2.2.2.2 (by decide)⟩

theorem sessionOp_preserves_inv (s : Session) (op : SessionOp)
    (h : s.updateAll = true → s.uiUpdateIDs = []) :
    (SessionOp.apply s op).updateAll = true → (SessionOp.apply s op).uiUpdateIDs = [] := by
  cases op with
  | single objectID =>
    by_cases hid : objectID = INVALID_OBJECT_ID
    · simpa [SessionOp.apply, Session.containerChangedUI, hid] using h
    · cases hupd : s.updateAll with
      | true => simpa [SessionOp.apply, Session.containerChangedUI, hid, hupd] using h
      | false =>
        by_cases hle : MAX_UI_UPDATE_IDS ≤ s.uiUpdateIDs.length <;>
          simp [SessionOp.apply, Session.containerChangedUI, hid, hupd, hle]
  | batch objectIDs =>
    cases hupd : s.updateAll with
    | true => simpa [SessionOp.apply, Session.containerChangedUIBatch, hupd] using h
    | false =>
      by_cases hle : MAX_UI_UPDATE_IDS ≤ s.uiUpdateIDs.length + objectIDs.length <;>
        simp [SessionOp.apply, Session.containerChangedUIBatch, hupd, hle]
  | drain =>
    cases hupd : s.updateAll with
    | true => simp [SessionOp.apply, Session.getUIUpdateIDs, Session.hasUIUpdateIDs, hupd]
    | false =>
      by_cases hN : s.uiUpdateIDs = []
      · simp [SessionOp.apply, Session.getUIUpdateIDs, Session.hasUIUpdateIDs, hupd, hN]
      · have hcsv := toCSV_ne_empty _ hN
        simp [SessionOp.apply, Session.getUIUpdateIDs, Session.hasUIUpdateIDs, hupd, hN, hcsv]
  | clear => simp [SessionOp.apply, Session.clearUpdateIDs]

/-- C3: starting from a fresh session, any sequence of single/batch change
notifications, drains and clears keeps the invariant that the pending set
is non-empty only while `updateAll` is false: whenever `updateAll` is true,
the pending set is empty. -/
theorem C3_updateAll_pending_exclusive (timeout now : Int) (ops : List SessionOp)
    (h : (runOps (Session.fresh timeout now) ops).updateAll = true) :
    (runOps (Session.fresh timeout now) ops).uiUpdateIDs = [] := by
  have main : ∀ (l : List SessionOp) (s : Session),
      (s.updateAll = true → s.uiUpdateIDs = []) →
      ((l.foldl SessionOp.apply s).updateAll = true →
        (l.foldl SessionOp.apply s).uiUpdateIDs = []) := by
    intro l
    induction l with
    | nil => intro s hs; simpa using hs
    | cons op rest ih =>
      intro s hs
      simpa using ih (SessionOp.apply s op) (sessionOp_preserves_inv s op hs)
  exact main ops (Session.fresh timeout now) (fun _ => rfl) h

/-- Witness for C3: a batch of ten ids puts a fresh session into
`updateAll` mode, and the pending set is indeed empty there. -/
theorem C3_updateAll_pending_exclusive_witness :
    (runOps (Session.fresh 0 0) [SessionOp.batch [1, 2, 3, 4, 5, 6, 7, 8, 9, 10]]).uiUpdateIDs = [] :=
  C3_updateAll_pending_exclusive 0 0 [SessionOp.batch [1, 2, 3, 4, 5, 6, 7, 8, 9, 10]] (by decide)

theorem containerChangedUI_updateAll (s : Session) (h : s.updateAll = true) (objectID : Int) :
    s.containerChangedUI objectID = s := by
  simp [Session.containerChangedUI, h]

theorem foldl_containerChangedUI_updateAll (ids : List Int) (s : Session) (h : s.updateAll = true) :
    ids.foldl Session.containerChangedUI s = s := by
  induction ids with
  | nil => rfl
  | cons a as ih => rw [List.foldl_cons, containerChangedUI_updateAll s h a, ih]

theorem foldl_containerChangedUI_growth : ∀ (ids : List Int) (s : Session),
    s.updateAll = false →
    (∀ i ∈ ids, i ≠ INVALID_OBJECT_ID) →
    (s.uiUpdateIDs ++ ids).Nodup →
    s.uiUpdateIDs.length + ids.length ≤ MAX_UI_UPDATE_IDS →
    ids.foldl Session.containerChangedUI s = { s with uiUpdateIDs := s.uiUpdateIDs ++ ids } := by
  intro ids
  induction ids with
  | nil =>
    intro s _ _ _ _
    simp
  | cons a as ih =>
    intro s hupd hval hnd hlen
    have ha : a ≠ INVALID_OBJECT_ID := hval a (List.mem_cons_self a as)
    have hlt : s.uiUpdateIDs.length < MAX_UI_UPDATE_IDS := by
      simp only [List.length_cons] at hlen
      omega
    have hnotmem : a ∉ s.uiUpdateIDs := by
      rw [List.nodup_append] at hnd
      exact fun hmem => hnd.2.2 hmem (List.mem_cons_self a as)
    have hstep : s.containerChangedUI a = { s with uiUpdateIDs := s.uiUpdateIDs ++ [a] } := by
      simp [Session.containerChangedUI, ha, hupd, Nat.not_le.mpr hlt, setInsert, hnotmem]
    rw [List.foldl_cons, hstep]
    rw [ih { s with uiUpdateIDs := s.uiUpdateIDs ++ [a] } hupd
      (fun i hi => hval i (List.mem_cons_of_mem a hi))
      (by simpa [List.append_assoc] using hnd)
      (by simp at hlen ⊢; omega)]
    simp [List.append_assoc]

/-- C8: fifteen consecutive single-id notifications with distinct valid ids
drive a fresh session into `updateAll` mode, so the first drain returns the
`"all"` sentinel and the drain immediately after returns the empty result
(`"all"` is delivered exactly once). -/
theorem C8_fifteen_ids (ids : List Int) (hlen : ids.length = 15) (hnd : ids.Nodup)
    (hval : ∀ i ∈ ids, i ≠ INVALID_OBJECT_ID) (timeout now : Int) :
    ((ids.foldl Session.containerChangedUI (Session.fresh timeout now)).getUIUpdateIDs).1 = "all" ∧
    (((ids.foldl Session.containerChangedUI (Session.fresh timeout now)).getUIUpdateIDs).2.getUIUpdateIDs).1 = "" := by
  have hids : ids = ids.take 10 ++ ids.drop 10 := (List.take_append_drop 10 ids).symm
  have hl1len : (ids.take 10).length = 10 := by
    simp [List.length_take, hlen]
  have hl2len : (ids.drop 10).length = 5 := by
    simp [List.length_drop, hlen]
  obtain ⟨b, bs, hb⟩ : ∃ b bs, ids.drop 10 = b :: bs := by
    cases hd : ids.drop 10 with
    | nil => rw [hd] at hl2len; simp at hl2len
    | cons b bs => exact ⟨b, bs, rfl⟩
  have h1 : (ids.take 10).foldl Session.containerChangedUI (Session.fresh timeout now) =
      { Session.fresh timeout now with uiUpdateIDs := ids.take 10 } := by
    have := foldl_containerChangedUI_growth (ids.take 10) (Session.fresh timeout now) rfl
      (fun i hi => hval i ((List.take_sublist 10 ids).subset hi))
      (by simpa [Session.fresh] using hnd.sublist (List.take_sublist 10 ids))
      (by simp [Session.fresh, hl1len, MAX_UI_UPDATE_IDS])
    simpa [Session.fresh] using this
  have hbval : b ≠ INVALID_OBJECT_ID :=
    hval b ((List.drop_sublist 10 ids).subset (hb ▸ List.mem_cons_self b bs))
  have h2 : ({ Session.fresh timeout now with uiUpdateIDs := ids.take 10 } : Session).containerChangedUI b =
      { Session.fresh timeout now with uiUpdateIDs := [], updateAll := true } := by
    simp [Session.containerChangedUI, Session.fresh, hbval, hl1len, MAX_UI_UPDATE_IDS]
  rw [hids, List.foldl_append, h1, hb, List.foldl_cons, h2,
    foldl_containerChangedUI_updateAll bs _ rfl]
  constructor
  · simp [Session.getUIUpdateIDs, Session.hasUIUpdateIDs]
  · simp [Session.getUIUpdateIDs, Session.hasUIUpdateIDs]

/-- Witness for C8 at the ids 1..15. -/
theorem C8_fifteen_ids_witness :
    ((([1, 2, 3, 4, 5, 6, 7, 8, 9, 10, 11, 12, 13, 14, 15] : List Int).foldl
        Session.containerChangedUI (Session.fresh 0 0)).getUIUpdateIDs).1 = "all" ∧
    (((([1, 2, 3, 4, 5, 6, 7, 8, 9, 10, 11, 12, 13, 14, 15] : List Int).foldl
        Session.containerChangedUI (Session.fresh 0 0)).getUIUpdateIDs).2.getUIUpdateIDs).1 = "" :=
  C8_fifteen_ids [1, 2, 3, 4, 5, 6, 7, 8, 9, 10, 11, 12, 13, 14, 15]
    (by decide) (by decide) (by decide) 0 0

theorem checkTimer_sessions (m : SessionManager) : m.checkTimer.sessions = m.sessions := by
  unfold SessionManager.checkTimer
  split
  · rfl
  · split <;> rfl

theorem checkTimer_timerAdded (m : SessionManager) :
    m.checkTimer.timerAdded = decide (m.sessions ≠ []) := by
  obtain ⟨ss, flag⟩ := m
  cases ss <;> cases flag <;> simp [SessionManager.checkTimer]

theorem sessionIdGo_error_iff (m : SessionManager) (gen : Nat → String) :
    ∀ (fuel count : Nat), 101 ≤ count + fuel →
      (isOkB (sessionIdGo m gen count fuel) = false ↔
        ∀ i : Nat, count ≤ i → i ≤ 100 → (m.getSession (gen i)).isSome = true) := by
  intro fuel
  induction fuel with
  | zero =>
    intro count hcf
    have h100 : 100 < count := by omega
    rw [sessionIdGo, if_pos h100]
    constructor
    · intro _ i h1 h2
      omega
    · intro _
      rfl
  | succ f ih =>
    intro count hcf
    by_cases h100 : 100 < count
    · rw [sessionIdGo, if_pos h100]
      constructor
      · intro _ i h1 h2
        omega
      · intro _
        rfl
    · by_cases hcoll : (m.getSession (gen count)).isSome = true
      · have hstep : sessionIdGo m gen count (f + 1) = sessionIdGo m gen (count + 1) f := by
          rw [sessionIdGo, if_neg h100, if_pos hcoll]
        rw [hstep, ih (count + 1) (by omega)]
        constructor
        · intro hall i hi1 hi2
          rcases Nat.eq_or_lt_of_le hi1 with heq | hlt
          · exact heq ▸ hcoll
          · exact hall i (by omega) hi2
        · intro hall i hi1 hi2
          exact hall i (by omega) hi2
      · have hok : sessionIdGo m gen count (f + 1) = .ok (gen count) := by
          rw [sessionIdGo, if_neg h100, if_neg hcoll]
        rw [hok]
        constructor
        · intro hfalse
          exact absurd hfalse (by simp [isOkB])
        · intro hall
          exact absurd (hall count le_rfl (by omega)) hcoll

theorem sessionIdGo_ok_fresh (m : SessionManager) (gen : Nat → String) :
    ∀ (fuel count : Nat) (sid : String), sessionIdGo m gen count fuel = .ok sid →
      m.getSession sid = none := by
  intro fuel
  induction fuel with
  | zero =>
    intro count sid h
    rw [sessionIdGo] at h
    by_cases h100 : 100 < count
    · rw [if_pos h100] at h
      exact absurd h (by simp)
    · by_cases hcoll : (m.getSession (gen count)).isSome = true
      · rw [if_neg h100, if_pos hcoll] at h
        exact absurd h (by simp)
      · rw [if_neg h100, if_neg hcoll] at h
        injection h with h2
        subst h2
        exact Option.not_isSome_iff_eq_none.mp hcoll
  | succ f ih =>
    intro count sid h
    rw [sessionIdGo] at h
    by_cases h100 : 100 < count
    · rw [if_pos h100] at h
      exact absurd h (by simp)
    · by_cases hcoll : (m.getSession (gen count)).isSome = true
      · rw [if_neg h100, if_pos hcoll] at h
        exact ih (count + 1) sid h
      · rw [if_neg h100, if_neg hcoll] at h
        injection h with h2
        subst h2
        exact Option.not_isSome_iff_eq_none.mp hcoll

/-- C4 (counterexample): with one live session of id `"a"` and an id
stream whose first 100 ids are all `"a"`, there are 100 consecutive
collisions, yet `createSession` succeeds (the 101st generated id, `"b"`,
is accepted): the claim that the fatal error fires exactly at 100
consecutive collisions is false. -/
theorem C4_counterexample :
    ((List.range 100).all (fun i => (c4Mgr.getSession (c4Gen i)).isSome)) = true ∧
    isOkB (c4Mgr.createSession c4Gen 0 0) = true := by
  constructor
  · decide
  · rfl

/-- C4 (amended): `createSession` raises the fatal error exactly when the
first 101 generated ids (loop counter 0 through 100) all collide with
currently-live session ids — one more collision than the claim's 100,
because the post-increment test `count++ > 100` only fires on iteration
102; on success, the session is appended to the registry and its id was
checked fresh against the live sessions. -/
theorem C4_retry_bound (m : SessionManager) (gen : Nat → String) (timeout now : Int) :
    (isOkB (m.createSession gen timeout now) = false ↔
      ∀ i : Nat, i ≤ 100 → (m.getSession (gen i)).isSome = true) ∧
    (∀ s m2, m.createSession gen timeout now = .ok (s, m2) →
      m2.sessions = m.sessions ++ [s] ∧ m.getSession s.sessionID = none) := by
  constructor
  · have hiso : isOkB (m.createSession gen timeout now) = isOkB (sessionIdLoop m gen) := by
      unfold SessionManager.createSession
      cases sessionIdLoop m gen <;> rfl
    rw [hiso, sessionIdLoop, sessionIdGo_error_iff m gen 102 0 (by omega)]
    constructor
    · exact fun hall i hi => hall i (Nat.zero_le i) hi
    · exact fun hall i _ hi => hall i hi
  · intro s m2 hok
    unfold SessionManager.createSession at hok
    cases hE : sessionIdLoop m gen with
    | error e =>
      rw [hE] at hok
      exact absurd hok (by simp)
    | ok sid =>
      rw [hE] at hok
      injection hok with h2
      have hs := congrArg Prod.fst h2
      have hm2 := congrArg Prod.snd h2
      dsimp at hs hm2
      subst hs
      subst hm2
      refine ⟨by rw [checkTimer_sessions], ?_⟩
      exact sessionIdGo_ok_fresh m gen 102 0 sid hE

/-- Witness for C4 (amended): creating a session in an empty registry with
a constant id stream succeeds, appends the session, and its id was free. -/
theorem C4_retry_bound_witness :
    c4wMgr.sessions = ({ sessions := [], timerAdded := false } : SessionManager).sessions ++ [c4wSession] ∧
    ({ sessions := [], timerAdded := false } : SessionManager).getSession c4wSession.sessionID = none :=
  (C4_retry_bound { sessions := [], timerAdded := false } (fun _ => "x") 0 0).2 c4wSession c4wMgr rfl

/-- C5: a successful `createSession` assigns the new session an id that
differs from every live session's id, so a registry with pairwise-distinct
ids still has pairwise-distinct ids afterwards. -/
theorem C5_distinct_ids (m : SessionManager) (gen : Nat → String) (timeout now : Int)
    (s : Session) (m2 : SessionManager)
    (h : m.createSession gen timeout now = .ok (s, m2))
    (hnd : (m.sessions.map Session.sessionID).Nodup) :
    s.sessionID ∉ m.sessions.map Session.sessionID ∧
    (m2.sessions.map Session.sessionID).Nodup := by
  unfold SessionManager.createSession at h
  cases hE : sessionIdLoop m gen with
  | error e =>
    rw [hE] at h
    exact absurd h (by simp)
  | ok sid =>
    rw [hE] at h
    injection h with h2
    have hs := congrArg Prod.fst h2
    have hm2 := congrArg Prod.snd h2
    dsimp at hs hm2
    subst hs
    subst hm2
    have hfresh : m.getSession sid = none := sessionIdGo_ok_fresh m gen 102 0 sid hE
    have hnotmem : sid ∉ m.sessions.map Session.sessionID := by
      intro hmem
      unfold SessionManager.getSession at hfresh
      rw [List.find?_eq_none] at hfresh
      obtain ⟨x, hx, hxid⟩ := List.mem_map.mp hmem
      exact hfresh x hx (by simp [hxid])
    refine ⟨by simpa using hnotmem, ?_⟩
    rw [checkTimer_sessions]
    show ((m.sessions ++ [{ Session.fresh timeout now with sessionID := sid }]).map Session.sessionID).Nodup
    rw [List.map_append]
    refine List.Nodup.append hnd (by simp) ?_
    intro a ha hb
    simp at hb
    subst hb
    exact hnotmem ha

/-- Witness for C5: the session created in an empty registry. -/
theorem C5_distinct_ids_witness :
    c5Session.sessionID ∉ (({ sessions := [], timerAdded := false } : SessionManager)).sessions.map Session.sessionID ∧
    (c5Mgr.sessions.map Session.sessionID).Nodup :=
  C5_distinct_ids { sessions := [], timerAdded := false } (fun _ => "y") 0 0 c5Session c5Mgr rfl
    (by decide)

theorem sweepLoop_sessions (now : Int) : ∀ (rest kept : List Session) (flag : Bool),
    (sweepLoop now kept rest flag).1 = kept ++ rest.filter (fun s => !(sessionExpired now s)) := by
  intro rest
  induction rest with
  | nil =>
    intro kept flag
    simp [sweepLoop]
  | cons s rs ih =>
    intro kept flag
    by_cases hx : sessionExpired now s = true
    · rw [show sweepLoop now kept (s :: rs) flag =
          sweepLoop now kept rs (SessionManager.checkTimer ⟨kept ++ rs, flag⟩).timerAdded from by
        simp [sweepLoop, hx]]
      rw [ih]
      simp [List.filter_cons, hx]
    · rw [show sweepLoop now kept (s :: rs) flag = sweepLoop now (kept ++ [s]) rs flag from by
        simp [sweepLoop, hx]]
      rw [ih]
      simp [List.filter_cons, hx]

theorem sweepLoop_flag (now : Int) : ∀ (rest kept : List Session) (flag : Bool),
    (flag = true ↔ kept ++ rest ≠ []) →
    ((sweepLoop now kept rest flag).2 = true ↔ (sweepLoop now kept rest flag).1 ≠ []) := by
  intro rest
  induction rest with
  | nil =>
    intro kept flag h
    simpa [sweepLoop] using h
  | cons s rs ih =>
    intro kept flag h
    by_cases hx : sessionExpired now s = true
    · rw [show sweepLoop now kept (s :: rs) flag =
          sweepLoop now kept rs (SessionManager.checkTimer ⟨kept ++ rs, flag⟩).timerAdded from by
        simp [sweepLoop, hx]]
      apply ih
      rw [checkTimer_timerAdded]
      exact decide_eq_true_iff
    · rw [show sweepLoop now kept (s :: rs) flag = sweepLoop now (kept ++ [s]) rs flag from by
        simp [sweepLoop, hx]]
      apply ih
      constructor
      · intro _
        simp
      · intro _
        exact h.mpr (by simp)

/-- C6: as long as the flag was in sync before, after `createSession`
(on success), `removeSession` and `timerNotify` the timer-subscription
flag `timerAdded` is true exactly when the session collection is
non-empty; in particular removing or sweeping away the last session drops
the subscription and the next successful `createSession` re-establishes
it. -/
theorem C6_timer_flag_sync (m : SessionManager) (gen : Nat → String) (timeout now : Int)
    (sessionID : String) (sweepNow : Int)
    (hInv : m.timerAdded = true ↔ m.sessions ≠ []) :
    (∀ s m2, m.createSession gen timeout now = .ok (s, m2) →
      (m2.timerAdded = true ↔ m2.sessions ≠ [])) ∧
    ((m.removeSession sessionID).timerAdded = true ↔
      (m.removeSession sessionID).sessions ≠ []) ∧
    ((m.timerNotify sweepNow).timerAdded = true ↔
      (m.timerNotify sweepNow).sessions ≠ []) := by
  refine ⟨?_, ?_, ?_⟩
  · intro s m2 h
    unfold SessionManager.createSession at h
    cases hE : sessionIdLoop m gen with
    | error e =>
      rw [hE] at h
      exact absurd h (by simp)
    | ok sid =>
      rw [hE] at h
      injection h with h2
      have hm2 := congrArg Prod.snd h2
      dsimp at hm2
      subst hm2
      rw [checkTimer_timerAdded, checkTimer_sessions]
      simp
  · unfold SessionManager.removeSession
    cases hR : removeFirstSession sessionID m.sessions with
    | none => exact hInv
    | some l =>
      rw [checkTimer_timerAdded, checkTimer_sessions]
      simp
  · unfold SessionManager.timerNotify
    exact sweepLoop_flag sweepNow m.sessions [] m.timerAdded (by simpa using hInv)

/-- Witness for C6: removing the only session of a subscribed registry. -/
theorem C6_timer_flag_sync_witness :
    (c6Mgr.removeSession "a").timerAdded = true ↔ (c6Mgr.removeSession "a").sessions ≠ [] :=
  (C6_timer_flag_sync c6Mgr (fun _ => "z") 0 0 "a" 0 (by decide)).2.1

/-- C7: one `timerNotify` sweep at time `now` keeps exactly the sessions
whose millisecond distance from `lastAccess` does not exceed
`1000 * timeout`, in their original relative order (the survivors are the
original list filtered in place), and removes exactly the expired ones. -/
theorem C7_sweep_exact (m : SessionManager) (now : Int) :
    (m.timerNotify now).sessions = m.sessions.filter (fun s => !(sessionExpired now s)) ∧
    List.Sublist (m.timerNotify now).sessions m.sessions ∧
    (∀ s, s ∈ m.sessions → (sessionExpired now s = true ↔ s ∉ (m.timerNotify now).sessions)) := by
  have hsess : (m.timerNotify now).sessions = m.sessions.filter (fun s => !(sessionExpired now s)) := by
    unfold SessionManager.timerNotify
    simpa using sweepLoop_sessions now m.sessions [] m.timerAdded
  refine ⟨hsess, ?_, ?_⟩
  · rw [hsess]
    exact List.filter_sublist _
  · intro s hs
    rw [hsess]
    constructor
    · intro hx hmem
      rw [List.mem_filter, hx] at hmem
      simp at hmem
    · intro hnot
      by_contra hx
      have hx2 : sessionExpired now s = false := by
        simpa using hx
      exact hnot (List.mem_filter.mpr ⟨hs, by simp [hx2]⟩)

/-- Witness for C7: in a registry with one expired and one live session,
the expired one is exactly the one swept out. -/
theorem C7_sweep_exact_witness :
    sessionExpired 2000 c7Expired = true ↔ c7Expired ∉ (c7Mgr.timerNotify 2000).sessions :=
  (C7_sweep_exact c7Mgr 2000).2.2 c7Expired (by decide)

/-- C9: the manager-level fan-out (single and batch) is the identity on an
empty registry, never touches `timerAdded`, and maps each slot of the
session list to the session-level notification when that session is logged
in and to the unchanged session otherwise. -/
theorem C9_fanout (m : SessionManager) (objectID : Int) (objectIDs : List Int) :
    (m.sessions = [] →
      m.containerChangedUI objectID = m ∧ m.containerChangedUIBatch objectIDs = m) ∧
    ((m.containerChangedUI objectID).timerAdded = m.timerAdded ∧
      (m.containerChangedUIBatch objectIDs).timerAdded = m.timerAdded) ∧
    (∀ k : Nat, (m.containerChangedUI objectID).sessions[k]? =
      (m.sessions[k]?).map (fun s => if s.loggedIn = true then s.containerChangedUI objectID else s)) ∧
    (∀ k : Nat, (m.containerChangedUIBatch objectIDs).sessions[k]? =
      (m.sessions[k]?).map (fun s => if s.loggedIn = true then s.containerChangedUIBatch objectIDs else s)) := by
  refine ⟨?_, ⟨?_, ?_⟩, ?_, ?_⟩
  · intro h
    constructor <;>
      simp [SessionManager.containerChangedUI, SessionManager.containerChangedUIBatch, h]
  · by_cases h : m.sessions.length ≤ 0 <;> simp [SessionManager.containerChangedUI, h]
  · by_cases h : m.sessions.length ≤ 0 <;> simp [SessionManager.containerChangedUIBatch, h]
  · intro k
    by_cases h : m.sessions.length ≤ 0
    · have hnil : m.sessions = [] := List.length_eq_zero.mp (Nat.le_zero.mp h)
      simp [SessionManager.containerChangedUI, h, hnil]
    · simp [SessionManager.containerChangedUI, h]
  · intro k
    by_cases h : m.sessions.length ≤ 0
    · have hnil : m.sessions = [] := List.length_eq_zero.mp (Nat.le_zero.mp h)
      simp [SessionManager.containerChangedUIBatch, h, hnil]
    · simp [SessionManager.containerChangedUIBatch, h]

/-- Witness for C9: the empty-registry fast path. -/
theorem C9_fanout_witness :
    ({ sessions := [], timerAdded := false } : SessionManager).containerChangedUI 7 =
      { sessions := [], timerAdded := false } ∧
    ({ sessions := [], timerAdded := false } : SessionManager).containerChangedUIBatch [7, 8] =
      { sessions := [], timerAdded := false } :=
  (C9_fanout { sessions := [], timerAdded := false } 7 [7, 8]).1 rfl

end Gerbera
